import Mathlib

/-!
A shallow Lean embedding of the Neo4j MCP example service (src/server.py) and
its client (src/client.py).

JSON values travelling between client, service and database are modelled by
the inductive type `Json`; Python dicts become insertion-ordered association
lists.  The external Neo4j driver is abstracted by a `Driver` record holding
two oracles: `readRun` models `session.run` inside a plain session and
`writeRun` models running a statement inside `session.write_transaction`.
Both return `Except String (List Row)`: `Except.error msg` models a raised
exception whose `str` is `msg`, and `Except.ok rows` models the list of
`record.data()` dictionaries.  Every service method and Flask endpoint of
server.py is translated into a total Lean function over this model; Python
exceptions become `Except.error` values, and the two handlers whose
validation code can itself raise (outside their try blocks) return
`Except String Response`, where an `Except.error` result models an exception
escaping the handler into the web framework.
-/

namespace Neo4jMCP

/-- JSON values, as produced by Flask `request.get_json` and consumed by
`jsonify`.  Python `None` is `Json.null`; dicts keep insertion order. -/
inductive Json where
  | null : Json
  | bool (b : Bool) : Json
  | int (n : Int) : Json
  | str (s : String) : Json
  | arr (elems : List Json) : Json
  | obj (entries : List (String × Json)) : Json

/-- A Python dict with string keys, in insertion order. -/
abbrev Dict := List (String × Json)

/-- One result record, as returned by `record.data()`. -/
abbrev Row := Dict

/-- An HTTP response: status code and JSON-serialisable body. -/
abbrev Response := Nat × Json

/-- Python truthiness of a JSON value (`bool(x)`). -/
def pyTruthy : Json → Bool
  | Json.null => false
  | Json.bool b => b
  | Json.int n => n != 0
  | Json.str s => s != ""
  | Json.arr elems => !elems.isEmpty
  | Json.obj entries => !entries.isEmpty

/-- Dict lookup (`d[k]` when the key is present, `none` otherwise):
the value of the first entry whose key equals `k`. -/
def pyDictGet (d : Dict) (k : String) : Option Json :=
  (d.find? (fun p => p.1 == k)).map Prod.snd

/-- Python `d.get(k, default)`: the stored value when the key is present
(even when that value is `None`), otherwise the default. -/
def pyGet (d : Dict) (k : String) (dflt : Json) : Json :=
  (pyDictGet d k).getD dflt

/-- Python type name of a JSON value, used in exception messages. -/
def pyTypeName : Json → String
  | Json.null => "NoneType"
  | Json.bool _ => "bool"
  | Json.int _ => "int"
  | Json.str _ => "str"
  | Json.arr _ => "list"
  | Json.obj _ => "dict"

/-- Python `==` between a `str` and an arbitrary JSON value: equal exactly
when the other value is the same string (a str never equals a non-str). -/
def pyStrEq (s : String) : Json → Bool
  | Json.str t => s == t
  | _ => false

/-- Characters with leading and trailing whitespace removed, as by Python
`str.strip()` with no argument. -/
def pyStripChars (cs : List Char) : List Char :=
  (((cs.dropWhile Char.isWhitespace).reverse).dropWhile Char.isWhitespace).reverse

/-- Python `s.strip()`. -/
def pyStrip (s : String) : String :=
  ⟨pyStripChars s.data⟩

/-- Python `s.upper()` (ASCII case mapping suffices for the keywords used). -/
def pyUpper (s : String) : String :=
  ⟨s.data.map Char.toUpper⟩

/-- Prefix test on character lists. -/
def listIsPrefixOf : List Char → List Char → Bool
  | [], _ => true
  | _ :: _, [] => false
  | a :: as, b :: bs => a == b && listIsPrefixOf as bs

/-- Python `s.startswith(pre)` for a single prefix. -/
def pyStartswith (s pre : String) : Bool :=
  listIsPrefixOf pre.data s.data

/-- Containment of one character list in another, scanning left to right. -/
def listContainsSub (needle : List Char) : List Char → Bool
  | [] => needle.isEmpty
  | c :: rest => listIsPrefixOf needle (c :: rest) || listContainsSub needle rest

/-- Python substring test `field in s` for strings. -/
def pyStrContains (s field : String) : Bool :=
  listContainsSub field.data s.data

/-- Python `field in v` for a JSON container `v`: key membership for a dict,
element membership for a list, substring test for a str; any other type
raises `TypeError: argument of type ... is not iterable`. -/
def pyContains (v : Json) (field : String) : Except String Bool :=
  match v with
  | Json.obj entries => Except.ok (entries.any (fun p => p.1 == field))
  | Json.arr elems => Except.ok (elems.any (fun x => pyStrEq field x))
  | Json.str s => Except.ok (pyStrContains s field)
  | other =>
      Except.error ("argument of type \x27" ++ pyTypeName other ++ "\x27 is not iterable")

/-- Python `all(field in v for field in fields)`: short-circuits on the first
`False`, and propagates a `TypeError` raised by a membership test. -/
def pyAllContains (v : Json) : List String → Except String Bool
  | [] => Except.ok true
  | f :: rest =>
      match pyContains v f with
      | Except.error e => Except.error e
      | Except.ok false => Except.ok false
      | Except.ok true => pyAllContains v rest

/-- Python subscription `v[k]` with a string key: dict lookup (raising
`KeyError` when absent); any other type raises a `TypeError`. -/
def pySubscript (v : Json) (k : String) : Except String Json :=
  match v with
  | Json.obj entries =>
      match pyDictGet entries k with
      | some x => Except.ok x
      | none => Except.error ("\x27" ++ k ++ "\x27")
  | Json.str _ => Except.error "string indices must be integers"
  | Json.arr _ => Except.error "list indices must be integers or slices, not str"
  | other => Except.error ("\x27" ++ pyTypeName other ++ "\x27 object is not subscriptable")

/-- Python `v.get(k, default)` on an arbitrary value: only dicts have the
`get` attribute; anything else raises an `AttributeError`. -/
def pyGetAttrGet (v : Json) (k : String) (dflt : Json) : Except String Json :=
  match v with
  | Json.obj entries => Except.ok (pyGet entries k dflt)
  | other =>
      Except.error ("\x27" ++ pyTypeName other ++ "\x27 object has no attribute \x27get\x27")

/-- Python `params or \x7b\x7d` applied to an optional dict argument defaulting
to `None`: `None` and falsy values are replaced by the empty dict. -/
def pyOrEmptyDict : Option Json → Json
  | none => Json.obj []
  | some v => if pyTruthy v then v else Json.obj []

/-- Python `x == 1` for a JSON value: true for the integer 1 and for `True`
(Python booleans compare equal to the matching integers). -/
def pyEqOne : Json → Bool
  | Json.int n => n == 1
  | Json.bool b => b
  | _ => false

mutual

/-- Python `repr` of a JSON value (approximating string escaping by plain
quoting, which is exact for the identifier-like strings used here). -/
def pyRepr : Json → String
  | Json.null => "None"
  | Json.bool true => "True"
  | Json.bool false => "False"
  | Json.int n => toString n
  | Json.str s => "\x27" ++ s ++ "\x27"
  | Json.arr elems => "[" ++ pyReprSeq elems ++ "]"
  | Json.obj entries => "\x7b" ++ pyReprEntries entries ++ "\x7d"

/-- Comma-separated `repr`s of list elements. -/
def pyReprSeq : List Json → String
  | [] => ""
  | [x] => pyRepr x
  | x :: rest => pyRepr x ++ ", " ++ pyReprSeq rest

/-- Comma-separated `repr`s of dict entries. -/
def pyReprEntries : List (String × Json) → String
  | [] => ""
  | [(k, v)] => "\x27" ++ k ++ "\x27: " ++ pyRepr v
  | (k, v) :: rest => "\x27" ++ k ++ "\x27: " ++ pyRepr v ++ ", " ++ pyReprEntries rest

end

/-- Python `str` of a JSON value, as used by f-string interpolation. -/
def pyStr : Json → String
  | Json.str s => s
  | v => pyRepr v

/-- The JSON error body `jsonify(dict(error = msg))` used by every endpoint. -/
def errBody (msg : String) : Json :=
  Json.obj [("error", Json.str msg)]

/-- The external Neo4j driver, abstracted: `readRun q params` models
`session.run(q, params)` in a plain session, `writeRun q params` models
running `q` inside `session.write_transaction` and collecting
`record.data()` for every record.  `Except.error msg` models a raised
driver exception with message `msg`. -/
structure Driver where
  readRun : String → Json → Except String (List Row)
  writeRun : String → Json → Except String (List Row)

/-- `Neo4jService.execute_read_query(query, params=None)`: opens a session and
runs the query with `params or \x7b\x7d`. -/
def execute_read_query (d : Driver) (query : String) (params : Option Json) :
    Except String (List Row) :=
  d.readRun query (pyOrEmptyDict params)

/-- `Neo4jService.execute_write_query(query, params=None)`: runs the query in a
write transaction with `params or \x7b\x7d`. -/
def execute_write_query (d : Driver) (query : String) (params : Option Json) :
    Except String (List Row) :=
  d.writeRun query (pyOrEmptyDict params)

/-- `Neo4jService.run_custom_query(query, params=None)`:
`query.strip().upper().startswith(("CREATE", "DELETE", "MERGE", "SET"))`
selects the write path, anything else the read path. -/
def run_custom_query (d : Driver) (query : String) (params : Option Json) :
    Except String (List Row) :=
  if (["CREATE", "DELETE", "MERGE", "SET"] : List String).any
      (fun kw => pyStartswith (pyUpper (pyStrip query)) kw) then
    execute_write_query d query params
  else
    execute_read_query d query params

/-- `Neo4jService.verify_connectivity()`: runs `RETURN 1 AS result`, takes
`result.single()["result"] == 1`; the enclosing try/except converts every
raised exception (driver failure, wrong record count, missing key) to
`False`, so the function is total and never raises. -/
def verify_connectivity (d : Driver) : Bool :=
  match d.readRun "RETURN 1 AS result" (Json.obj []) with
  | Except.error _ => false
  | Except.ok rows =>
      match rows with
      | [row] =>
          match pyDictGet row "result" with
          | some v => pyEqOne v
          | none => false
      | _ => false

/-- The Cypher text built by `Neo4jService.create_node` (an f-string with the
label spliced in). -/
def create_node_query (label : String) : String :=
  "\n        CREATE (n:" ++ label ++ " $props)\n        SET n.created_at = datetime()\n        RETURN n\n        "

/-- `Neo4jService.create_node(label, properties)`: runs the creation statement
and returns `result[0] if result else \x7b\x7d`. -/
def create_node (d : Driver) (label : String) (properties : Json) :
    Except String Row :=
  match execute_write_query d (create_node_query label)
      (some (Json.obj [("props", properties)])) with
  | Except.error e => Except.error e
  | Except.ok result => Except.ok (result.headD [])

/-- The Cypher text used by `Neo4jService.get_node_by_id`. -/
def get_node_by_id_query : String :=
  "\n        MATCH (n) \n        WHERE id(n) = $node_id \n        RETURN n\n        "

/-- `Neo4jService.get_node_by_id(node_id)`: returns `result[0] if result else
None`. -/
def get_node_by_id (d : Driver) (node_id : Int) : Except String (Option Row) :=
  match execute_read_query d get_node_by_id_query
      (some (Json.obj [("node_id", Json.int node_id)])) with
  | Except.error e => Except.error e
  | Except.ok result => Except.ok result.head?

/-- The Cypher text used by `Neo4jService.update_node`. -/
def update_node_query : String :=
  "\n        MATCH (n) \n        WHERE id(n) = $node_id \n        SET n += $props,\n            n.updated_at = datetime()\n        RETURN n\n        "

/-- `Neo4jService.update_node(node_id, properties)`: returns `result[0] if
result else \x7b\x7d`. -/
def update_node (d : Driver) (node_id : Int) (properties : Json) :
    Except String Row :=
  match execute_write_query d update_node_query
      (some (Json.obj [("node_id", Json.int node_id), ("props", properties)])) with
  | Except.error e => Except.error e
  | Except.ok result => Except.ok (result.headD [])

/-- The Cypher text used by `Neo4jService.delete_node`. -/
def delete_node_query : String :=
  "\n        MATCH (n) \n        WHERE id(n) = $node_id \n        DETACH DELETE n\n        RETURN count(n) as deleted\n        "

/-- `Neo4jService.delete_node(node_id)`: evaluates
`result[0]["deleted"] > 0 if result else False`; a missing `deleted` key
raises `KeyError`, a non-numeric value raises `TypeError` in the comparison
(both surface as exceptions to the caller). -/
def delete_node (d : Driver) (node_id : Int) : Except String Bool :=
  match execute_write_query d delete_node_query
      (some (Json.obj [("node_id", Json.int node_id)])) with
  | Except.error e => Except.error e
  | Except.ok [] => Except.ok false
  | Except.ok (row :: _) =>
      match pyDictGet row "deleted" with
      | some (Json.int n) => Except.ok (decide (n > 0))
      | some (Json.bool b) => Except.ok b
      | some v =>
          Except.error ("\x27>\x27 not supported between instances of \x27" ++
            pyTypeName v ++ "\x27 and \x27int\x27")
      | none => Except.error "\x27deleted\x27"

/-- The Cypher text built by `Neo4jService.create_relationship` (an f-string
with the relationship type spliced in via `str`). -/
def create_relationship_query (rel_type : Json) : String :=
  "\n        MATCH (a), (b) \n        WHERE id(a) = $from_id AND id(b) = $to_id\n        CREATE (a)-[r:" ++ pyStr rel_type ++ " $props]->(b)\n        SET r.created_at = datetime()\n        RETURN r\n        "

/-- `Neo4jService.create_relationship(from_id, to_id, rel_type,
properties=None)`: matches both endpoint nodes, creates the relationship, and
returns `result[0] if result else \x7b\x7d` (so an empty match yields the
empty dict, not an error). -/
def create_relationship (d : Driver) (from_id to_id : Json) (rel_type : Json)
    (properties : Option Json) : Except String Row :=
  match execute_write_query d (create_relationship_query rel_type)
      (some (Json.obj
        [("from_id", from_id), ("to_id", to_id),
         ("props", pyOrEmptyDict properties)])) with
  | Except.error e => Except.error e
  | Except.ok result => Except.ok (result.headD [])

/-- GET `/health`: computes `verify_connectivity`, reports
`status`/`database_connection`, and picks `200 if connectivity else 503`. -/
def health_check (d : Driver) : Response :=
  let connectivity := verify_connectivity d
  ((if connectivity then 200 else 503),
   Json.obj
     [("status", Json.str (if connectivity then "healthy" else "unhealthy")),
      ("database_connection", Json.bool connectivity)])

/-- POST `/nodes/(label)`: 400 when the body is absent or falsy, otherwise the
service call inside try/except, 201 on success and 500 on exception. -/
def create_node_ep (d : Driver) (label : String) (body : Option Json) : Response :=
  match body with
  | none => (400, errBody "No data provided")
  | some data =>
      if pyTruthy data then
        match create_node d label data with
        | Except.ok r => (201, Json.obj r)
        | Except.error e => (500, errBody e)
      else (400, errBody "No data provided")

/-- GET `/nodes/(id)`: 200 with the row when the adapter result is truthy,
404 when it is `None` (or a falsy empty row), 500 on exception. -/
def get_node_ep (d : Driver) (node_id : Int) : Response :=
  match get_node_by_id d node_id with
  | Except.error e => (500, errBody e)
  | Except.ok (some r) =>
      if r.isEmpty then (404, errBody "Node not found") else (200, Json.obj r)
  | Except.ok none => (404, errBody "Node not found")

/-- PUT `/nodes/(id)`: 400 when the body is absent or falsy; then 200 with the
updated row when the adapter result is truthy, 404 when it is the empty dict,
500 on exception. -/
def update_node_ep (d : Driver) (node_id : Int) (body : Option Json) : Response :=
  match body with
  | none => (400, errBody "No data provided")
  | some data =>
      if pyTruthy data then
        match update_node d node_id data with
        | Except.ok r =>
            if r.isEmpty then (404, errBody "Node not found") else (200, Json.obj r)
        | Except.error e => (500, errBody e)
      else (400, errBody "No data provided")

/-- DELETE `/nodes/(id)`: 204 with an empty (non-JSON) body on success, 404
when the adapter reports no deletion, 500 on exception. -/
def delete_node_ep (d : Driver) (node_id : Int) : Response :=
  match delete_node d node_id with
  | Except.error e => (500, errBody e)
  | Except.ok true => (204, Json.str "")
  | Except.ok false => (404, errBody "Node not found")

/-- The body of the try block of the POST `/relationships` handler:
subscriptions of the three required fields, the `properties` lookup, and the
service call; any `Except.error` here models an exception raised inside the
try block. -/
def create_relationship_try_body (d : Driver) (data : Json) :
    Except String Response :=
  match pySubscript data "from_id" with
  | Except.error e => Except.error e
  | Except.ok f =>
      match pySubscript data "to_id" with
      | Except.error e => Except.error e
      | Except.ok t =>
          match pySubscript data "type" with
          | Except.error e => Except.error e
          | Except.ok ty =>
              match pyGetAttrGet data "properties" (Json.obj []) with
              | Except.error e => Except.error e
              | Except.ok props =>
                  match create_relationship d f t ty (some props) with
                  | Except.error e => Except.error e
                  | Except.ok r => Except.ok (201, Json.obj r)

/-- POST `/relationships`: the validation
`if not data or not all(field in data for field in required_fields)` runs
before the try block, so a `TypeError` raised by a membership test on a
non-container body escapes the handler (modelled by an `Except.error`
result); otherwise the try body runs and its exceptions become 500. -/
def create_relationship_ep (d : Driver) (body : Option Json) :
    Except String Response :=
  match body with
  | none => Except.ok (400, errBody "Required fields: from_id, to_id, type")
  | some data =>
      if pyTruthy data then
        match pyAllContains data ["from_id", "to_id", "type"] with
        | Except.error e => Except.error e
        | Except.ok false =>
            Except.ok (400, errBody "Required fields: from_id, to_id, type")
        | Except.ok true =>
            match create_relationship_try_body d data with
            | Except.ok resp => Except.ok resp
            | Except.error e => Except.ok (500, errBody e)
      else Except.ok (400, errBody "Required fields: from_id, to_id, type")

/-- The body of the try block of the POST `/cypher` handler: the `query`
subscription, the `params` lookup, the requirement that the query be a string
(its `strip` attribute is the first thing `run_custom_query` touches), and
the service call. -/
def run_cypher_try_body (d : Driver) (data : Json) : Except String Response :=
  match pySubscript data "query" with
  | Except.error e => Except.error e
  | Except.ok q =>
      match pyGetAttrGet data "params" (Json.obj []) with
      | Except.error e => Except.error e
      | Except.ok params =>
          match q with
          | Json.str qs =>
              match run_custom_query d qs (some params) with
              | Except.error e => Except.error e
              | Except.ok rows => Except.ok (200, Json.arr (rows.map Json.obj))
          | other =>
              Except.error
                ("\x27" ++ pyTypeName other ++ "\x27 object has no attribute \x27strip\x27")

/-- POST `/cypher`: `if not data or "query" not in data` runs before the try
block (so a `TypeError` from the membership test on a non-container body
escapes the handler); otherwise the try body runs and its exceptions become
500. -/
def run_cypher_ep (d : Driver) (body : Option Json) : Except String Response :=
  match body with
  | none => Except.ok (400, errBody "Query required")
  | some data =>
      if pyTruthy data then
        match pyContains data "query" with
        | Except.error e => Except.error e
        | Except.ok false => Except.ok (400, errBody "Query required")
        | Except.ok true =>
            match run_cypher_try_body d data with
            | Except.ok resp => Except.ok resp
            | Except.error e => Except.ok (500, errBody e)
      else Except.ok (400, errBody "Query required")

mutual

/-- The inner recursive search of `extract_node_id` (client.py `find_id`),
on one JSON value: dicts are scanned entry by entry, lists element by
element. -/
def find_id : Json → Option Json
  | Json.obj entries => find_id_entries entries
  | Json.arr elems => find_id_list elems
  | _ => none

/-- `find_id` over the entries of a dict: an entry keyed `id` or `identity`
whose value satisfies `isinstance(v, int)` (which in Python also accepts
booleans) is returned; otherwise the value is searched recursively before
moving on. -/
def find_id_entries : List (String × Json) → Option Json
  | [] => none
  | (k, v) :: rest =>
      if (k == "id" || k == "identity") &&
          (match v with | Json.int _ => true | Json.bool _ => true | _ => false) then
        some v
      else
        match find_id v with
        | some r => some r
        | none => find_id_entries rest

/-- `find_id` over the elements of a list. -/
def find_id_list : List Json → Option Json
  | [] => none
  | x :: rest =>
      match find_id x with
      | some r => some r
      | none => find_id_list rest

end

/-- client.py `extract_node_id(response)`: when the key `n` is present its
value is used unconditionally (`response["n"].get("identity",
response["n"].get("id"))`, raising `AttributeError` when that value is not a
dict); only when `n` is absent does the code inspect the value of the first
key, and only when that yields nothing does it run the recursive `find_id`
search.  `Except.ok Json.null` models returning Python `None`. -/
def extract_node_id (response : Dict) : Except String Json :=
  match pyDictGet response "n" with
  | some (Json.obj nentries) =>
      Except.ok (pyGet nentries "identity" (pyGet nentries "id" Json.null))
  | some nval =>
      Except.error ("\x27" ++ pyTypeName nval ++ "\x27 object has no attribute \x27get\x27")
  | none =>
      Except.ok
        (match response with
         | (_, Json.obj potential) :: _ =>
             match pyDictGet potential "identity" with
             | some v => v
             | none =>
                 match pyDictGet potential "id" with
                 | some v => v
                 | none => (find_id_entries response).getD Json.null
         | _ => (find_id_entries response).getD Json.null)

/-- Modelled from claim C1 wording: the trimmed, case-insensitive leading
keyword of a query, its first whitespace-delimited token uppercased.  Used
only to state claim C1 against the source definition. -/
def leading_keyword (q : String) : String :=
  pyUpper ⟨(pyStripChars q.data).takeWhile (fun c => !c.isWhitespace)⟩

/-- Steps 2 and 3 of the client heuristic as the claims describe them:
inspect the value of the first top-level key for `identity` or `id`, and fall
through to the recursive `find_id` search when that yields nothing. -/
def extract_fallback (response : Dict) : Json :=
  match response with
  | (_, Json.obj potential) :: _ =>
      match pyDictGet potential "identity" with
      | some v => v
      | none =>
          match pyDictGet potential "id" with
          | some v => v
          | none => (find_id_entries response).getD Json.null
  | _ => (find_id_entries response).getD Json.null

/-- Modelled from claim C2 wording: three ordered fallback steps where step 1
applies only when key `n` maps to a dict containing `identity` or `id`, and
each step falls through to the next whenever it finds nothing. -/
def extract_node_id_claimed (response : Dict) : Json :=
  match pyDictGet response "n" with
  | some (Json.obj nentries) =>
      if (pyDictGet nentries "identity").isSome || (pyDictGet nentries "id").isSome then
        pyGet nentries "identity" (pyGet nentries "id" Json.null)
      else extract_fallback response
  | _ => extract_fallback response

/-- Modelled from the amended claim C2 wording: step 1 triggers whenever the
top-level key `n` is present and is terminal; for a dict value it yields the
`identity` entry, else the `id` entry, else `None`, and never falls through;
a non-dict value raises; only when `n` is absent do steps 2 and 3 run, with
fallthrough between them. -/
def extract_node_id_amended (response : Dict) : Except String Json :=
  match pyDictGet response "n" with
  | some (Json.obj nentries) =>
      Except.ok (pyGet nentries "identity" (pyGet nentries "id" Json.null))
  | some nval =>
      Except.error ("\x27" ++ pyTypeName nval ++ "\x27 object has no attribute \x27get\x27")
  | none => Except.ok (extract_fallback response)

/-- A driver whose read and write paths return visibly different results,
used to observe routing decisions. -/
def routingDriver : Driver :=
  ⟨fun _ _ => Except.ok [], fun _ _ => Except.ok [[("w", Json.int 1)]]⟩

/-- A driver for which every statement succeeds with no result rows. -/
def emptyDriver : Driver :=
  ⟨fun _ _ => Except.ok [], fun _ _ => Except.ok []⟩

/-- A driver for which every statement raises. -/
def failDriver : Driver :=
  ⟨fun _ _ => Except.error "connection refused",
   fun _ _ => Except.error "connection refused"⟩

/-- A driver whose write path reports one deleted entity. -/
def deletedOneDriver : Driver :=
  ⟨fun _ _ => Except.ok [], fun _ _ => Except.ok [[("deleted", Json.int 1)]]⟩

/-- The response dict used to refute the fallthrough reading of claim C2: the
key `n` maps to a dict with neither `identity` nor `id`, while an integer
`identity` sits under another key. -/
def c2Response : Dict :=
  [("n", Json.obj []), ("m", Json.obj [("identity", Json.int 5)])]

/-- A dict whose lookup succeeds has the sought key, so `any` finds it. -/
theorem pyDictGet_some_any {d : Dict} {k : String} {v : Json}
    (h : pyDictGet d k = some v) : (d.any fun p => p.1 == k) = true := by
  unfold pyDictGet at h
  obtain ⟨q, hq, _⟩ := Option.map_eq_some'.mp h
  rw [List.any_eq_true]
  exact List.find?_isSome.mp (by rw [hq]; rfl)

/-- A dict whose lookup fails has no entry with the sought key. -/
theorem pyDictGet_none_any {d : Dict} {k : String}
    (h : pyDictGet d k = none) : (d.any fun p => p.1 == k) = false := by
  unfold pyDictGet at h
  have h2 := List.find?_eq_none.mp (Option.map_eq_none'.mp h)
  by_contra hc
  rw [Bool.not_eq_false, List.any_eq_true] at hc
  obtain ⟨x, hx, hpx⟩ := hc
  exact h2 x hx hpx

/-- A dict with a successful lookup is nonempty, hence truthy. -/
theorem pyTruthy_of_pyDictGet_some {d : Dict} {k : String} {v : Json}
    (h : pyDictGet d k = some v) : pyTruthy (Json.obj d) = true := by
  cases d with
  | nil => simp [pyDictGet] at h
  | cons p tl => rfl

/-- Membership tests on a dict body never raise, so the `all` validation on a
dict reduces to a pure conjunction of key-membership tests. -/
theorem pyAllContains_obj (d : Dict) (fs : List String) :
    pyAllContains (Json.obj d) fs =
      Except.ok (fs.all fun f => d.any fun p => p.1 == f) := by
  induction fs with
  | nil => rfl
  | cons f rest ih =>
      simp only [pyAllContains, pyContains, List.all_cons]
      cases h : (d.any fun p => p.1 == f) with
      | false => simp [h]
      | true => simp [h, ih]

/-- A nonempty dict is unchanged by the `params or` defaulting. -/
theorem pyOrEmptyDict_obj_cons (e : String × Json) (l : Dict) :
    pyOrEmptyDict (some (Json.obj (e :: l))) = Json.obj (e :: l) := rfl

/-- Claim C1 (counterexample): routing is not determined by the leading
keyword.  The query `SETX QUERY` has leading keyword `SETX`, outside the
write set, yet `run_custom_query` routes it through the write path (here
observable because the driver answers differently on the two paths), so the
claimed equivalence fails at this input. -/
theorem run_custom_query_leading_keyword_refuted :
    ¬ (run_custom_query routingDriver "SETX QUERY" none =
          execute_read_query routingDriver "SETX QUERY" none ↔
        leading_keyword "SETX QUERY" ∉
          (["CREATE", "DELETE", "MERGE", "SET"] : List String)) := by
  intro h
  have hread := h.mpr (by decide)
  have hconcrete : (Except.ok [[("w", Json.int 1)]] : Except String (List Row)) =
      Except.ok [] := hread
  exact List.noConfusion (Except.ok.inj hconcrete)

/-- Claim C1 (amended): `run_custom_query` routes a query through the write
path exactly when the stripped, uppercased query string starts with one of
the prefixes `CREATE`, `DELETE`, `MERGE`, `SET` (a string-prefix test,
not a whole-keyword test); every other query, including one whose leading
keyword is `REMOVE`, goes through the read path. -/
theorem run_custom_query_string_prefix_routing :
    (∀ (d : Driver) (q : String) (p : Option Json),
        run_custom_query d q p =
          if (["CREATE", "DELETE", "MERGE", "SET"] : List String).any
              (fun kw => pyStartswith (pyUpper (pyStrip q)) kw) then
            execute_write_query d q p
          else execute_read_query d q p) ∧
    (∀ (d : Driver) (p : Option Json),
        run_custom_query d "REMOVE n.deleted" p =
          execute_read_query d "REMOVE n.deleted" p) :=
  ⟨fun _ _ _ => rfl, fun _ _ => rfl⟩

/-- Claim C2 (counterexample): the steps of `extract_node_id` do not all fall
through.  On a response whose key `n` maps to a dict with neither `identity`
nor `id`, the code returns `None` even though a recursive search (step 3 of
the claim) would find the integer `identity` stored under the key `m`, as
the claim-described algorithm does. -/
theorem extract_node_id_fallthrough_refuted :
    extract_node_id c2Response = Except.ok Json.null ∧
    extract_node_id_claimed c2Response = Json.int 5 ∧
    Json.null ≠ Json.int 5 :=
  ⟨rfl, rfl, fun h => Json.noConfusion h⟩

/-- Claim C2 (amended): `extract_node_id` proceeds in ordered fallback steps,
but step 1 triggers whenever the top-level key `n` is present and is then
terminal: for a dict value it returns that dict entry `identity`, else `id`,
else `None`, never falling through (and a non-dict value raises); only when
`n` is absent does step 2 inspect the first top-level key value for
`identity` or `id`, falling through to the recursive step-3 search when that
finds nothing. -/
theorem extract_node_id_matches_amended_description (r : Dict) :
    extract_node_id r = extract_node_id_amended r := by
  unfold extract_node_id extract_node_id_amended extract_fallback
  rfl

/-- Claim C8: when the top-level key `n` maps to a dict containing neither
`identity` nor `id`, `extract_node_id` returns `None` at once, regardless of
what the rest of the response holds (the statement quantifies over every
such response, including ones with an integer `id` elsewhere). -/
theorem extract_node_id_n_key_terminal (r : Dict) (nentries : Dict)
    (hn : pyDictGet r "n" = some (Json.obj nentries))
    (h1 : pyDictGet nentries "identity" = none)
    (h2 : pyDictGet nentries "id" = none) :
    extract_node_id r = Except.ok Json.null := by
  unfold extract_node_id
  rw [hn]
  simp [pyGet, h1, h2]

/-- Claim C8 (witness): a concrete response where `n` lacks both keys while
an integer `id` sits under the sibling key `m` still yields `None`. -/
theorem extract_node_id_n_key_terminal_witness :
    extract_node_id [("n", Json.obj []), ("m", Json.obj [("id", Json.int 7)])] =
      Except.ok Json.null :=
  extract_node_id_n_key_terminal _ [] rfl rfl rfl

/-- Claim C3: when the relationship-creation statement matches nothing (the
behaviour of the database when `from_id` or `to_id` identifies no node,
imported here as the hypothesis that the write returns no rows),
`create_relationship` returns the empty dict instead of raising, and the
POST `/relationships` endpoint answers 201 with an empty JSON object body. -/
theorem create_relationship_silent_empty
    (d : Driver) (entries : Dict) (f t ty : Json)
    (hf : pyDictGet entries "from_id" = some f)
    (ht : pyDictGet entries "to_id" = some t)
    (hty : pyDictGet entries "type" = some ty)
    (hdb : d.writeRun (create_relationship_query ty)
        (Json.obj [("from_id", f), ("to_id", t),
          ("props", pyOrEmptyDict (some (pyGet entries "properties" (Json.obj []))))]) =
        Except.ok []) :
    create_relationship d f t ty (some (pyGet entries "properties" (Json.obj []))) =
      Except.ok [] ∧
    create_relationship_ep d (some (Json.obj entries)) = Except.ok (201, Json.obj []) := by
  have hsvc : create_relationship d f t ty
      (some (pyGet entries "properties" (Json.obj []))) = Except.ok [] := by
    unfold create_relationship execute_write_query
    rw [pyOrEmptyDict_obj_cons, hdb]
    rfl
  refine ⟨hsvc, ?_⟩
  have hall : (["from_id", "to_id", "type"].all fun fl =>
      entries.any fun p => p.1 == fl) = true := by
    simp [List.all_cons, pyDictGet_some_any hf, pyDictGet_some_any ht,
      pyDictGet_some_any hty]
  have htb : create_relationship_try_body d (Json.obj entries) =
      Except.ok (201, Json.obj []) := by
    simp only [create_relationship_try_body, pySubscript, pyGetAttrGet, hf, ht, hty, hsvc]
  simp only [create_relationship_ep, pyTruthy_of_pyDictGet_some hf, pyAllContains_obj,
    hall, if_true, htb]

/-- Claim C3 (witness): against a driver whose write returns no rows, a
well-formed relationship request yields the empty dict from the adapter and
a 201 response with an empty JSON object body. -/
theorem create_relationship_silent_empty_witness :
    create_relationship emptyDriver (Json.int 1) (Json.int 2) (Json.str "WORKS_AT")
        (some (Json.obj [])) = Except.ok [] ∧
    create_relationship_ep emptyDriver
        (some (Json.obj
          [("from_id", Json.int 1), ("to_id", Json.int 2),
           ("type", Json.str "WORKS_AT")])) =
      Except.ok (201, Json.obj []) :=
  create_relationship_silent_empty emptyDriver
    [("from_id", Json.int 1), ("to_id", Json.int 2), ("type", Json.str "WORKS_AT")]
    (Json.int 1) (Json.int 2) (Json.str "WORKS_AT") rfl rfl rfl rfl

/-- Claim C4 (counterexample): an exception can escape a handler.  A POST
`/relationships` whose JSON body is the number 5 is truthy, so the
validation `all(field in data ...)` runs before the try block and its
membership test on an integer raises a `TypeError` that propagates out of
the handler (here: an `Except.error` result of the handler itself). -/
theorem handler_exception_escape_counterexample :
    create_relationship_ep emptyDriver (some (Json.int 5)) =
      Except.error "argument of type \x27int\x27 is not iterable" := rfl

/-- Claim C4 (amended): every exception raised by a Database Adapter call is
caught at the endpoint boundary of all six endpoints and becomes a 500
response with body an `error` object carrying the exception message, so
adapter exceptions never escape a handler (a validation-time `TypeError`
from a non-mapping body can still escape the `/relationships` and `/cypher`
handlers, as the counterexample shows). -/
theorem adapter_errors_become_500 (msg : String) (d : Driver)
    (hr : ∀ q p, d.readRun q p = Except.error msg)
    (hw : ∀ q p, d.writeRun q p = Except.error msg) :
    (∀ label data, pyTruthy data = true →
        create_node_ep d label (some data) = (500, errBody msg)) ∧
    (∀ nid, get_node_ep d nid = (500, errBody msg)) ∧
    (∀ nid data, pyTruthy data = true →
        update_node_ep d nid (some data) = (500, errBody msg)) ∧
    (∀ nid, delete_node_ep d nid = (500, errBody msg)) ∧
    (∀ entries f t ty, pyDictGet entries "from_id" = some f →
        pyDictGet entries "to_id" = some t →
        pyDictGet entries "type" = some ty →
        create_relationship_ep d (some (Json.obj entries)) =
          Except.ok (500, errBody msg)) ∧
    (∀ entries q, pyDictGet entries "query" = some (Json.str q) →
        run_cypher_ep d (some (Json.obj entries)) = Except.ok (500, errBody msg)) := by
  refine ⟨?_, ?_, ?_, ?_, ?_, ?_⟩
  · intro label data hdata
    simp only [create_node_ep, hdata, if_true, create_node, execute_write_query,
      pyOrEmptyDict_obj_cons, hw]
  · intro nid
    simp only [get_node_ep, get_node_by_id, execute_read_query,
      pyOrEmptyDict_obj_cons, hr]
  · intro nid data hdata
    simp only [update_node_ep, hdata, if_true, update_node, execute_write_query,
      pyOrEmptyDict_obj_cons, hw]
  · intro nid
    simp only [delete_node_ep, delete_node, execute_write_query,
      pyOrEmptyDict_obj_cons, hw]
  · intro entries f t ty hf ht hty
    have hall : (["from_id", "to_id", "type"].all fun fl =>
        entries.any fun p => p.1 == fl) = true := by
      simp [List.all_cons, pyDictGet_some_any hf, pyDictGet_some_any ht,
        pyDictGet_some_any hty]
    have hsvc : create_relationship d f t ty
        (some (pyGet entries "properties" (Json.obj []))) = Except.error msg := by
      unfold create_relationship execute_write_query
      rw [pyOrEmptyDict_obj_cons, hw]
    have htb : create_relationship_try_body d (Json.obj entries) =
        Except.error msg := by
      simp only [create_relationship_try_body, pySubscript, pyGetAttrGet, hf, ht, hty,
        hsvc]
    simp only [create_relationship_ep, pyTruthy_of_pyDictGet_some hf, pyAllContains_obj,
      hall, if_true, htb]
  · intro entries q hq
    have hrcq : run_custom_query d q
        (some (pyGet entries "params" (Json.obj []))) = Except.error msg := by
      unfold run_custom_query execute_read_query execute_write_query
      split
      · rw [hw]
      · rw [hr]
    have htb : run_cypher_try_body d (Json.obj entries) = Except.error msg := by
      simp only [run_cypher_try_body, pySubscript, pyGetAttrGet, hq, hrcq]
    have hcontains : pyContains (Json.obj entries) "query" =
        Except.ok true := by
      simp only [pyContains, pyDictGet_some_any hq]
    simp only [run_cypher_ep, pyTruthy_of_pyDictGet_some hq, hcontains, if_true, htb]

/-- Claim C4 (witness): a GET on `/nodes/1` against a driver that always
raises `connection refused` answers 500 with that message in the error
body. -/
theorem adapter_errors_become_500_witness :
    get_node_ep failDriver 1 = (500, errBody "connection refused") :=
  (adapter_errors_become_500 "connection refused" failDriver
    (fun _ _ => rfl) (fun _ _ => rfl)).2.1 1

/-- Claim C5: GET `/health` answers 200 with a healthy body exactly when
`verify_connectivity` succeeds and 503 with an unhealthy body exactly when it
fails; every probe failure (a raised driver exception in particular) is
converted to `false`, and success is precisely a single-record probe result
whose `result` entry compares equal to 1. -/
theorem health_check_iff_connectivity (d : Driver) :
    (health_check d =
        (200, Json.obj [("status", Json.str "healthy"),
          ("database_connection", Json.bool true)]) ↔
      verify_connectivity d = true) ∧
    (health_check d =
        (503, Json.obj [("status", Json.str "unhealthy"),
          ("database_connection", Json.bool false)]) ↔
      verify_connectivity d = false) ∧
    (∀ e, d.readRun "RETURN 1 AS result" (Json.obj []) = Except.error e →
      verify_connectivity d = false) ∧
    (verify_connectivity d = true ↔
      ∃ row v, d.readRun "RETURN 1 AS result" (Json.obj []) = Except.ok [row] ∧
        pyDictGet row "result" = some v ∧ pyEqOne v = true) := by
  refine ⟨?_, ?_, ?_, ?_⟩
  · cases hv : verify_connectivity d <;> simp [health_check, hv]
  · cases hv : verify_connectivity d <;> simp [health_check, hv]
  · intro e he
    simp [verify_connectivity, he]
  · constructor
    · intro hv
      unfold verify_connectivity at hv
      cases hres : d.readRun "RETURN 1 AS result" (Json.obj []) with
      | error e => rw [hres] at hv; exact absurd hv (by simp)
      | ok rows =>
          rw [hres] at hv
          rcases rows with _ | ⟨row, _ | ⟨row2, rest⟩⟩
          · exact absurd hv (by simp)
          · dsimp only at hv
            cases hg : pyDictGet row "result" with
            | none => rw [hg] at hv; exact absurd hv (by simp)
            | some v => rw [hg] at hv; exact ⟨row, v, rfl, hg, hv⟩
          · exact absurd hv (by simp)
    · rintro ⟨row, v, hres, hg, hone⟩
      simp [verify_connectivity, hres, hg, hone]

/-- Claim C5 (witness): against a driver that raises on every statement, the
health endpoint answers 503 and reports the connection as down. -/
theorem health_check_iff_connectivity_witness :
    health_check failDriver =
      (503, Json.obj [("status", Json.str "unhealthy"),
        ("database_connection", Json.bool false)]) :=
  ((health_check_iff_connectivity failDriver).2.1).mpr rfl

/-- Claim C6: `delete_node` reports success exactly when the `deleted` count
of the first result row is positive, and false when the result is empty or
the count is zero; the DELETE endpoint maps success to 204 with an empty
body, failure to 404, and answers 500 precisely when the adapter call
raises. -/
theorem delete_node_count_semantics (d : Driver) (nid : Int) :
    (∀ row rest (n : Int),
        d.writeRun delete_node_query (Json.obj [("node_id", Json.int nid)]) =
          Except.ok (row :: rest) →
        pyDictGet row "deleted" = some (Json.int n) →
        delete_node d nid = Except.ok (decide (n > 0)) ∧
          delete_node_ep d nid =
            if n > 0 then (204, Json.str "") else (404, errBody "Node not found")) ∧
    (d.writeRun delete_node_query (Json.obj [("node_id", Json.int nid)]) =
        Except.ok [] →
      delete_node d nid = Except.ok false ∧
        delete_node_ep d nid = (404, errBody "Node not found")) ∧
    (∀ b, delete_node d nid = Except.ok b →
      delete_node_ep d nid =
        if b then (204, Json.str "") else (404, errBody "Node not found")) ∧
    (∀ e, d.writeRun delete_node_query (Json.obj [("node_id", Json.int nid)]) =
        Except.error e →
      delete_node_ep d nid = (500, errBody e)) := by
  refine ⟨?_, ?_, ?_, ?_⟩
  · intro row rest n hwr hdel
    have hd : delete_node d nid = Except.ok (decide (n > 0)) := by
      simp only [delete_node, execute_write_query, pyOrEmptyDict_obj_cons, hwr, hdel]
    refine ⟨hd, ?_⟩
    by_cases hn : n > 0 <;> simp [delete_node_ep, hd, hn]
  · intro hwr
    have hd : delete_node d nid = Except.ok false := by
      simp only [delete_node, execute_write_query, pyOrEmptyDict_obj_cons, hwr]
    exact ⟨hd, by simp [delete_node_ep, hd]⟩
  · intro b hb
    cases b <;> simp [delete_node_ep, hb]
  · intro e he
    simp only [delete_node_ep, delete_node, execute_write_query,
      pyOrEmptyDict_obj_cons, he]

/-- Claim C6 (witness): a driver reporting a `deleted` count of 1 makes
`delete_node` succeed and the endpoint answer 204 with an empty body. -/
theorem delete_node_count_semantics_witness :
    delete_node deletedOneDriver 1 = Except.ok true ∧
    delete_node_ep deletedOneDriver 1 = (204, Json.str "") :=
  ⟨((delete_node_count_semantics deletedOneDriver 1).1
      [("deleted", Json.int 1)] [] 1 rfl rfl).1,
   ((delete_node_count_semantics deletedOneDriver 1).1
      [("deleted", Json.int 1)] [] 1 rfl rfl).2⟩

/-- Claim C7: a POST `/relationships` whose body is absent, or is a JSON
object missing at least one of `from_id`, `to_id`, `type`, answers 400 with
the message naming all three required fields and never invokes the Database
Adapter (the response is the same whatever driver is installed). -/
theorem relationships_missing_fields_400 (d d' : Driver) (body : Option Json)
    (h : body = none ∨ ∃ entries, body = some (Json.obj entries) ∧
        ∃ f ∈ (["from_id", "to_id", "type"] : List String),
          pyDictGet entries f = none) :
    create_relationship_ep d body =
      Except.ok (400, errBody "Required fields: from_id, to_id, type") ∧
    create_relationship_ep d body = create_relationship_ep d' body := by
  have key : ∀ dd : Driver, create_relationship_ep dd body =
      Except.ok (400, errBody "Required fields: from_id, to_id, type") := by
    intro dd
    rcases h with rfl | ⟨entries, rfl, f, hf, hnone⟩
    · rfl
    · have hall : (["from_id", "to_id", "type"].all fun fl =>
          entries.any fun p => p.1 == fl) = false := by
        have hfa := pyDictGet_none_any hnone
        cases hc : (["from_id", "to_id", "type"].all fun fl =>
            entries.any fun p => p.1 == fl) with
        | false => rfl
        | true =>
            have := List.all_eq_true.mp hc f hf
            rw [hfa] at this
            exact Bool.noConfusion this
      cases htr : pyTruthy (Json.obj entries) with
      | false => simp [create_relationship_ep, htr]
      | true => simp [create_relationship_ep, htr, pyAllContains_obj, hall]
  exact ⟨key d, (key d).trans (key d').symm⟩

/-- Claim C7 (witness): a body missing `type` gets the 400 with all three
field names, identically under a failing and an empty driver. -/
theorem relationships_missing_fields_400_witness :
    create_relationship_ep failDriver
        (some (Json.obj [("from_id", Json.int 1), ("to_id", Json.int 2)])) =
      Except.ok (400, errBody "Required fields: from_id, to_id, type") ∧
    create_relationship_ep failDriver
        (some (Json.obj [("from_id", Json.int 1), ("to_id", Json.int 2)])) =
      create_relationship_ep emptyDriver
        (some (Json.obj [("from_id", Json.int 1), ("to_id", Json.int 2)])) :=
  relationships_missing_fields_400 failDriver emptyDriver _
    (Or.inr ⟨[("from_id", Json.int 1), ("to_id", Json.int 2)], rfl,
      "type", by simp, rfl⟩)

/-- Claim C9: a POST `/nodes/(label)` or PUT `/nodes/(id)` whose parsed JSON
body is the empty object answers 400 with `No data provided`, and the
Database Adapter is never invoked (the response does not depend on the
driver). -/
theorem empty_body_400_no_adapter_call (d d' : Driver) (label : String) (nid : Int) :
    create_node_ep d label (some (Json.obj [])) = (400, errBody "No data provided") ∧
    update_node_ep d nid (some (Json.obj [])) = (400, errBody "No data provided") ∧
    create_node_ep d label (some (Json.obj [])) =
      create_node_ep d' label (some (Json.obj [])) ∧
    update_node_ep d nid (some (Json.obj [])) =
      update_node_ep d' nid (some (Json.obj [])) :=
  ⟨rfl, rfl, rfl, rfl⟩

/-- Claim C10: executing a query with the absent parameter mapping is the
same driver call, hence the same result, as executing it with the empty
mapping, on both the read and the write path. -/
theorem none_params_equiv_empty_params (d : Driver) (q : String) :
    execute_read_query d q none = execute_read_query d q (some (Json.obj [])) ∧
    execute_write_query d q none = execute_write_query d q (some (Json.obj [])) :=
  ⟨rfl, rfl⟩

end Neo4jMCP
